import Mathlib

/-!
Verification of the inventory-management client (Rust, Tauri backend).

This file shallowly embeds the core logic of the repository:
* the concurrent paginated catalog fetcher (`src/src-tauri/src/stock/mod.rs`,
  `fetch_all_products_concurrent` / `fetch_single_page`),
* the stock filter (`find_products_with_no_stock`),
* the draft-status updater (`update_products_to_draft`) and its summary
  (`generate_summary`),
* the compensating two-phase inventory mover
  (`src/src-tauri/src/inventory/mod.rs`, `transfer_inventory_between_locations`,
  `adjust_inventory`, `decrease_inventory_with_logging`),
* the location settings reader (`src/src-tauri/src/location/mod.rs`,
  `get_app_location`, `get_current_location_config`).

Remote HTTP collaborators (the Shopify admin API and the Firestore log sink)
are modelled as explicit environments/oracles: each remote call's reply is a
value supplied by the environment, and the remote inventory quantities are an
explicit state threaded through the operations.  Rust `Result<T, String>`
becomes `Except String T`; `Option<T>` becomes `Option T`; `i32`/`i64`
quantities become `Int` (the arithmetic on quantities is performed by the
remote service; the deltas used here are ±1, so machine overflow is not
reachable and unbounded integers are a faithful model of the remote's
behaviour); `u64` product ids become `Nat` rendered with `toString`, matching
Rust's `to_string` on `u64` for the id values that occur.
-/

namespace Inventario

/-! ## Concurrent paginated fetcher (`stock/mod.rs`, lines 141–260)

The mocked cursor-paginated source is a list of pages `pages : List (List α)`.
A cursor is an opaque continuation token; the mock server interprets the
cursor `some k` as "continue from page `k`" and the absent cursor (`none`,
the first request) as page `0`.  The server returns a next-cursor exactly
when a further page exists.  Requests against the mock always succeed, which
is the premise of the fetch claim (the error-abort paths of
`fetch_single_page` are not exercised by a succeeding source). -/

/-- Mock of `fetch_single_page`: returns the page of items addressed by the
cursor together with the next continuation cursor (absent on the last
page). -/
def fetchPage (pages : List (List α)) (cursor : Option Nat) : List α × Option Nat :=
  let idx := cursor.getD 0
  (pages.getD idx [],
   if idx + 1 < pages.length then some (idx + 1) else none)

/-- The batch-construction loop of `fetch_all_products_concurrent`
(`for i in 0..batch_size`): iteration `i` spawns a task carrying the current
`page_info` when `i == 0 || page_info.is_some()`, and iteration `0` resets
`page_info` to `None` after capturing it.  Returns the cursors carried by the
spawned tasks (in spawn order) and the value of `page_info` after the loop.
`remaining` counts the iterations left, `i` is the loop index. -/
def buildBatchGo : (remaining : Nat) → (i : Nat) → (pageInfo : Option Nat) →
    List (Option Nat) × Option Nat
  | 0, _, pageInfo => ([], pageInfo)
  | remaining + 1, i, pageInfo =>
    if i = 0 ∨ pageInfo.isSome then
      let taskCursor := pageInfo
      let pageInfo2 := if i = 0 then none else pageInfo
      let rest := buildBatchGo remaining (i + 1) pageInfo2
      (taskCursor :: rest.1, rest.2)
    else
      buildBatchGo remaining (i + 1) pageInfo

/-- The batch of task cursors spawned for one iteration of the outer loop of
`fetch_all_products_concurrent`, for window size `W` (the source fixes
`batch_size = 3`; we keep it as a parameter to quantify over window sizes). -/
def buildBatch (W : Nat) (pageInfo : Option Nat) : List (Option Nat) × Option Nat :=
  buildBatchGo W 0 pageInfo

/-- The `next_page_info` selection of `fetch_all_products_concurrent`: scan
the batch results in order and keep the first cursor once `next_page_info`
is no longer `None` (i.e. the first `some`). -/
def firstSome : List (Option β) → Option β
  | [] => none
  | some x :: _ => some x
  | none :: rest => firstSome rest

/-- The outer loop of `fetch_all_products_concurrent` against the mocked
source, with explicit fuel (the source loop terminates because the cursor
advances through finitely many pages; `pages.length + 1` fuel suffices).
Each iteration builds a batch, joins the fetched pages in spawn order,
stops when the batch is empty, appends, and continues at the first returned
cursor, stopping when that cursor is absent. -/
def fetchAllGo (pages : List (List α)) (W : Nat) : Nat → Option Nat → List α
  | 0, _ => []
  | fuel + 1, pageInfo =>
    let batchCursors := (buildBatch W pageInfo).1
    let results := batchCursors.map (fun c => fetchPage pages c)
    let batchProducts := (results.map (fun r => r.1)).flatten
    let nextPageInfo := firstSome (results.map (fun r => r.2))
    if batchProducts.isEmpty then []
    else
      batchProducts ++
        match nextPageInfo with
        | none => []
        | some k => fetchAllGo pages W fuel (some k)

/-- `fetch_all_products_concurrent` run against the mocked paginated source
`pages` with concurrency window `W`. -/
def fetch_all_products_concurrent (pages : List (List α)) (W : Nat) : List α :=
  fetchAllGo pages W (pages.length + 1) none

theorem buildBatchGo_none (remaining i : Nat) (hi : i ≠ 0) :
    buildBatchGo remaining i none = ([], none) := by
  induction remaining generalizing i with
  | zero => rfl
  | succ n ih =>
    simp only [buildBatchGo, Option.isSome_none, hi]
    simp only [Bool.false_eq_true, or_false, if_neg hi]
    exact ih (i + 1) (Nat.succ_ne_zero i)

/-- For any positive window `W`, the batch loop spawns exactly one task,
carrying the current cursor (iterations `i ≥ 1` find `page_info` reset to
`None` and spawn nothing). -/
theorem buildBatch_eq (W : Nat) (hW : 1 ≤ W) (p : Option Nat) :
    buildBatch W p = ([p], none) := by
  obtain ⟨W', rfl⟩ : ∃ W', W = W' + 1 := ⟨W - 1, (Nat.succ_pred_eq_of_pos hW).symm⟩
  simp only [buildBatch, buildBatchGo, true_or, if_true, if_pos rfl]
  rw [buildBatchGo_none W' (0 + 1) (by omega)]

theorem fetchAllGo_flatten (pages : List (List α)) (W : Nat) (hW : 1 ≤ W)
    (hne : ∀ p ∈ pages, p ≠ []) :
    ∀ fuel (k : Nat) (c : Option Nat), c.getD 0 = k → k < pages.length →
      pages.length - k ≤ fuel →
      fetchAllGo pages W fuel c = (pages.drop k).flatten := by
  intro fuel
  induction fuel with
  | zero =>
    intro k c hc hidx hfuel
    omega
  | succ n ih =>
    intro k c hc hidx hfuel
    have hpage : pages.getD k [] = pages[k] := List.getD_eq_getElem pages [] hidx
    have hne' : pages[k] ≠ [] := hne _ (List.getElem_mem hidx)
    have hdrop : pages.drop k = pages[k] :: pages.drop (k + 1) :=
      List.drop_eq_getElem_cons hidx
    rw [fetchAllGo, buildBatch_eq W hW c]
    simp only [List.map_cons, List.map_nil, fetchPage, hc, hpage,
      List.flatten_cons, List.flatten_nil, List.append_nil, firstSome]
    rw [if_neg (by simpa [List.isEmpty_iff] using hne')]
    by_cases hlast : k + 1 < pages.length
    · rw [if_pos hlast]
      simp only [firstSome]
      rw [ih (k + 1) (some (k + 1)) rfl hlast (by omega)]
      rw [hdrop, List.flatten_cons]
    · rw [if_neg hlast]
      simp only [firstSome]
      have hdropnil : pages.drop (k + 1) = [] :=
        List.drop_eq_nil_of_le (by omega)
      rw [hdrop, hdropnil, List.flatten_cons, List.flatten_nil, List.append_nil]

/-! ## Stock filter and draft-status updater (`stock/mod.rs`, lines 10–21,
282–305, 308–420) -/

/-- `EXCLUDED_PRODUCT_IDS` (source fixes the single id `3587363962985`). -/
def EXCLUDED_PRODUCT_IDS : List Nat := [3587363962985]

/-- `EXCLUDED_IDS_SET`: the exclusion ids rendered as strings. -/
def EXCLUDED_IDS_SET : List String := EXCLUDED_PRODUCT_IDS.map toString

/-- `ShopifyVariant`: only the `inventory_quantity` field is deserialized. -/
structure ShopifyVariant where
  inventory_quantity : Int
deriving DecidableEq, Repr

/-- `ShopifyProduct` as deserialized by the scanner. -/
structure ShopifyProduct where
  id : Nat
  title : String
  status : String
  variants : List ShopifyVariant
deriving DecidableEq, Repr

/-- `ProductNoStock`. -/
structure ProductNoStock where
  id : String
  title : String
  status : String
  is_excluded : Bool
deriving DecidableEq, Repr

/-- `UpdateResult`. -/
structure UpdateResult where
  product_id : String
  title : String
  success : Bool
  error : Option String
deriving DecidableEq, Repr

/-- `UpdateSummary`. -/
structure UpdateSummary where
  total_found : Nat
  excluded_count : Nat
  eligible_count : Nat
  successful_updates : Nat
  failed_updates : Nat
deriving DecidableEq, Repr

/-- The record built by `find_products_with_no_stock` for a product that
passes the no-stock predicate. -/
def mkNoStock (product : ShopifyProduct) : ProductNoStock :=
  { id := toString product.id
    title := product.title
    status := product.status
    is_excluded := EXCLUDED_IDS_SET.contains (toString product.id) }

/-- `find_products_with_no_stock`: keep products whose `status` is
`"active"` and none of whose variants has `inventory_quantity > 0`. -/
def find_products_with_no_stock (products : List ShopifyProduct) :
    List ProductNoStock :=
  products.filterMap (fun product =>
    if product.status = "active" then
      if product.variants.any (fun variant => variant.inventory_quantity > 0)
      then none
      else some (mkNoStock product)
    else none)

/-- The loop body of `update_products_to_draft`.  The remote status-update
endpoint is the oracle `upd`: `upd i = none` means the request for the
`i`-th candidate succeeds, `upd i = some e` means it fails with error text
`e`.  Returns the `UpdateResult` list and, as the call trace, the
`(index, product_id)` pairs for which a remote request was issued. -/
def updateGo (upd : Nat → Option String) :
    Nat → List ProductNoStock → List UpdateResult × List (Nat × String)
  | _, [] => ([], [])
  | i, product :: rest =>
    if product.is_excluded then
      let tail := updateGo upd (i + 1) rest
      (⟨product.id, product.title, true, some "Excluded from updates"⟩ :: tail.1,
       tail.2)
    else
      match upd i with
      | none =>
        let tail := updateGo upd (i + 1) rest
        (⟨product.id, product.title, true, none⟩ :: tail.1,
         (i, product.id) :: tail.2)
      | some e =>
        let tail := updateGo upd (i + 1) rest
        (⟨product.id, product.title, false, some e⟩ :: tail.1,
         (i, product.id) :: tail.2)

/-- `update_products_to_draft` over the candidate list, against the remote
oracle `upd`. -/
def update_products_to_draft (upd : Nat → Option String)
    (products : List ProductNoStock) :
    List UpdateResult × List (Nat × String) :=
  updateGo upd 0 products

/-- `generate_summary`. -/
def generate_summary (products : List ProductNoStock)
    (update_results : List UpdateResult) : UpdateSummary :=
  let excluded_count := (products.filter (fun p => p.is_excluded)).length
  let eligible_count := products.length - excluded_count
  let successful_updates :=
    (update_results.filter (fun r => r.success && r.error.isNone)).length
  let failed_updates := (update_results.filter (fun r => !r.success)).length
  { total_found := products.length
    excluded_count := excluded_count
    eligible_count := eligible_count
    successful_updates := successful_updates
    failed_updates := failed_updates }

/-! ## Compensating two-phase inventory mover (`inventory/mod.rs`,
lines 186–219, 303–392, 486–649)

The remote inventory store is the state `InvState`: the available quantity
per `(inventory_item_id, location_id)` pair.  Each remote call's reply is
scheduled by an environment record; a rejected adjustment leaves the remote
quantity unchanged.  Operations additionally return the trace of applied
adjustments, in issue order, and the warnings printed on best-effort
failures. -/

/-- `InventoryUpdate` (`utils/mod.rs`). -/
structure InventoryUpdate where
  variant_id : String
  location_id : String
  adjustment : Int
deriving Repr

/-- `StatusResponse` (`utils/mod.rs`). -/
structure StatusResponse where
  status : String
  message : String
deriving DecidableEq, Repr

/-- `EnhancedStatusResponse` (`inventory/mod.rs`, lines 1022–1027). -/
structure EnhancedStatusResponse where
  status : String
  message : String
  status_changed : Option String
  product_status : Option String
deriving DecidableEq, Repr

/-- The remote inventory quantities, per inventory item and location. -/
structure InvState where
  qty : String → String → Int

/-- Applying one accepted `inventory_levels/adjust.json` request to the
remote state. -/
def applyAdjust (st : InvState) (u : InventoryUpdate) : InvState :=
  ⟨fun v l =>
    if v = u.variant_id ∧ l = u.location_id then st.qty v l + u.adjustment
    else st.qty v l⟩

/-- The loop of `adjust_inventory` over its `updates` vector.  The oracle
gives the remote's reply to the `i`-th request of this call: `none` is a
2xx reply (the adjustment is applied), `some e` a rejection whose body text
is `e`, turned into the error `"Failed to adjust inventory: " ++ e` that
aborts the loop.  Also returns the updated remote state and the trace of
applied `(location_id, adjustment)` pairs. -/
def adjustGo (oracle : Nat → Option String) :
    Nat → InvState → List InventoryUpdate →
    Except String StatusResponse × InvState × List (String × Int)
  | _, st, [] =>
    (Except.ok ⟨"success", "Inventory adjustments completed"⟩, st, [])
  | i, st, u :: rest =>
    match oracle i with
    | some e => (Except.error ("Failed to adjust inventory: " ++ e), st, [])
    | none =>
      let tail := adjustGo oracle (i + 1) (applyAdjust st u) rest
      (tail.1, tail.2.1, (u.location_id, u.adjustment) :: tail.2.2)

/-- `adjust_inventory`. -/
def adjust_inventory (oracle : Nat → Option String) (st : InvState)
    (updates : List InventoryUpdate) :
    Except String StatusResponse × InvState × List (String × Int) :=
  adjustGo oracle 0 st updates

/-- Scheduled remote replies for one run of
`transfer_inventory_between_locations`: the three possible
`adjust_inventory` calls (source decrement, destination increment,
compensating source re-increment), the two Firestore log writes, the
zero-total-inventory check, and the status-to-draft update.  `none` / `.ok`
means the call succeeds. -/
structure MoverEnv where
  decErr : Option String
  incErr : Option String
  rbErr : Option String
  logSrcErr : Option String
  logDstErr : Option String
  zeroCheck : Except String Bool
  statusErr : Option String

/-- Result of a mover run: the returned `Result`, the final remote
quantities, the applied adjustments in issue order, and the warnings
printed for best-effort failures. -/
structure MoverResult where
  outcome : Except String EnhancedStatusResponse
  state : InvState
  applied : List (String × Int)
  warnings : List String

/-- `transfer_inventory_between_locations` (lines 488–649): decrement the
source location; on failure report "Errore nella rimozione" (nothing to
compensate).  Then increment the destination; on failure issue the
compensating source re-increment — if that also fails return the
"ERRORE CRITICO" message carrying both errors, otherwise report only the
original destination error.  On success write the two Firestore transfer
logs best-effort (failures become warnings), then run the
zero-total-inventory check: a check failure is a warning, but when the
check reports zero the status-to-draft update's error is propagated
(`update_product_status(..).await?`). -/
def transfer_inventory_between_locations (env : MoverEnv) (st : InvState)
    (inventory_item_id from_location_id to_location_id : String)
    (product_id variant_title product_name price from_location to_location :
      String) : MoverResult :=
  let decResult := adjust_inventory (fun _ => env.decErr) st
    [⟨inventory_item_id, from_location_id, -1⟩]
  match decResult with
  | (Except.error e, st1, tr1) =>
    ⟨Except.error ("Errore nella rimozione da " ++ from_location ++ ": " ++ e),
     st1, tr1, []⟩
  | (Except.ok _, st1, tr1) =>
    let incResult := adjust_inventory (fun _ => env.incErr) st1
      [⟨inventory_item_id, to_location_id, 1⟩]
    match incResult with
    | (Except.error e, st2, tr2) =>
      let rbResult := adjust_inventory (fun _ => env.rbErr) st2
        [⟨inventory_item_id, from_location_id, 1⟩]
      match rbResult with
      | (Except.error rollbackErr, st3, tr3) =>
        ⟨Except.error
          ("ERRORE CRITICO: Fallimento trasferimento e rollback fallito. Originale: "
            ++ e ++ ", Rollback: " ++ rollbackErr),
         st3, tr1 ++ tr2 ++ tr3, []⟩
      | (Except.ok _, st3, tr3) =>
        ⟨Except.error ("Errore nell'aggiunta a " ++ to_location ++ ": " ++ e),
         st3, tr1 ++ tr2 ++ tr3, []⟩
    | (Except.ok _, st2, tr2) =>
      let srcWarn := match env.logSrcErr with
        | some e => ["Warning: Failed to log source transfer: " ++ e]
        | none => []
      let dstWarn := match env.logDstErr with
        | some e => ["Warning: Failed to log destination transfer: " ++ e]
        | none => []
      let successMsg := "Trasferimento completato: " ++ product_name ++ " ("
        ++ variant_title ++ ") spostato da " ++ from_location ++ " a "
        ++ to_location
      match env.zeroCheck with
      | Except.ok true =>
        match env.statusErr with
        | some e => ⟨Except.error e, st2, tr1 ++ tr2, srcWarn ++ dstWarn⟩
        | none =>
          ⟨Except.ok ⟨"success", successMsg, some "to_draft", none⟩,
           st2, tr1 ++ tr2, srcWarn ++ dstWarn⟩
      | Except.ok false =>
        ⟨Except.ok ⟨"success", successMsg, none, none⟩,
         st2, tr1 ++ tr2, srcWarn ++ dstWarn⟩
      | Except.error e =>
        ⟨Except.ok ⟨"success", successMsg, none, none⟩,
         st2, tr1 ++ tr2,
         srcWarn ++ dstWarn ++
           ["Warning: Could not check product inventory status: " ++ e]⟩

/-- Scheduled remote replies for one run of
`decrease_inventory_with_logging`. -/
structure DecreaseEnv where
  adjErr : Option String
  zeroCheck : Except String Bool
  statusErr : Option String
  logErr : Option String

/-- `decrease_inventory_with_logging` (lines 304–392): adjust the inventory
by `-1` (failure propagates), run the zero-total-inventory check (its
failure propagates, via `?`), on a zero total attempt the status-to-draft
update (its failure is only a warning), then write the Firestore log entry
(its failure propagates, via `?`), and finally return the enhanced success
response. -/
def decrease_inventory_with_logging (env : DecreaseEnv) (st : InvState)
    (inventory_item_id location_id product_id variant_title product_name
      price negozio : String) : MoverResult :=
  let adjResult := adjust_inventory (fun _ => env.adjErr) st
    [⟨inventory_item_id, location_id, -1⟩]
  match adjResult with
  | (Except.error e, st1, tr1) => ⟨Except.error e, st1, tr1, []⟩
  | (Except.ok _, st1, tr1) =>
    match env.zeroCheck with
    | Except.error e => ⟨Except.error e, st1, tr1, []⟩
    | Except.ok hasZero =>
      let step := if hasZero then
          match env.statusErr with
          | none => (some "to_draft", some "draft", ([] : List String))
          | some e =>
            (none, none, ["Failed to update product status to draft: " ++ e])
        else (none, none, [])
      match env.logErr with
      | some e => ⟨Except.error e, st1, tr1, step.2.2⟩
      | none =>
        let base := "Inventario diminuito e registrato con successo"
        let msg := match step.1 with
          | some _ =>
            base ++ " - Prodotto impostato come bozza (inventario esaurito)"
          | none => base
        ⟨Except.ok ⟨"success", msg, step.1, step.2.1⟩, st1, tr1, step.2.2⟩

/-! ## Location settings (`location/mod.rs`)

The settings file is modelled as `Option String` (its content when it
exists); `serde_json::from_str::<LocationSetting>` is the external parser
`parse`, returning the `location` field on success. -/

/-- `LocationInfo`. -/
structure LocationInfo where
  name : String
  id : String
deriving DecidableEq, Repr

/-- `LocationConfig`. -/
structure LocationConfig where
  primary_location : LocationInfo
  secondary_location : LocationInfo
deriving DecidableEq, Repr

/-- The two `AppConfig` fields the location component reads
(`utils/mod.rs`, lines 55–56). -/
structure AppConfig where
  primary_location : String
  secondary_location : String
deriving DecidableEq, Repr

/-- `get_app_location` (lines 58–73): when the settings file exists, read
and parse it (a parse failure is reported as an error); when it does not
exist, return the error `"Location not set"`. -/
def get_app_location (file : Option String)
    (parse : String → Except String String) : Except String String :=
  match file with
  | some content =>
    match parse content with
    | Except.ok location => Except.ok location
    | Except.error e => Except.error ("Failed to parse location file: " ++ e)
  | none => Except.error "Location not set"

/-- `get_current_location_config` (lines 121–158): read the stored location,
defaulting to `"Treviso"` on any error (`unwrap_or`), then pick the
primary/secondary pair by a single string comparison with `"Treviso"`. -/
def get_current_location_config (file : Option String)
    (parse : String → Except String String) (config : AppConfig) :
    Except String LocationConfig :=
  let current_location := match get_app_location file parse with
    | Except.ok l => l
    | Except.error _ => "Treviso"
  if current_location = "Treviso" then
    Except.ok ⟨⟨"Treviso", config.primary_location⟩,
               ⟨"Mogliano", config.secondary_location⟩⟩
  else
    Except.ok ⟨⟨"Mogliano", config.secondary_location⟩,
               ⟨"Treviso", config.primary_location⟩⟩

/-- The configuration with Treviso primary. -/
def trevisoPrimary (config : AppConfig) : LocationConfig :=
  ⟨⟨"Treviso", config.primary_location⟩, ⟨"Mogliano", config.secondary_location⟩⟩

/-- The configuration with Mogliano primary. -/
def moglianoPrimary (config : AppConfig) : LocationConfig :=
  ⟨⟨"Mogliano", config.secondary_location⟩, ⟨"Treviso", config.primary_location⟩⟩

/-- `needle` occurs contiguously inside `hay` (stated on the character
data of the strings). -/
def substringOf (needle hay : String) : Prop :=
  ∃ p q : List Char, hay.data = p ++ needle.data ++ q

/-! ## Claim theorems -/

/-- C1: against every mocked cursor-paginated source of `N` pages (each page
nonempty: the server yields zero items only when the catalog is exhausted)
whose page sizes sum to `T`, `fetch_all_products_concurrent` returns exactly
the concatenation of all pages in server-yielded order — `T` items, no
duplicate, no gap — for every concurrency window `W ≥ 1` (hence for any `W`
between `1` and `N`). -/
theorem fetch_concurrent_returns_all_pages (pages : List (List α)) (W : Nat)
    (hW : 1 ≤ W) (hne : ∀ p ∈ pages, p ≠ []) :
    fetch_all_products_concurrent pages W = pages.flatten ∧
    (fetch_all_products_concurrent pages W).length
      = (pages.map List.length).sum := by
  have hmain : fetch_all_products_concurrent pages W = pages.flatten := by
    cases pages with
    | nil =>
      rw [fetch_all_products_concurrent, fetchAllGo, buildBatch_eq W hW]
      simp [fetchPage, firstSome]
    | cons page rest =>
      rw [fetch_all_products_concurrent]
      rw [fetchAllGo_flatten (page :: rest) W hW hne _ 0 none rfl
        (by simp) (by simp)]
      rfl
  exact ⟨hmain, by rw [hmain]; exact List.length_flatten _⟩

theorem fetch_concurrent_returns_all_pages_witness :
    fetch_all_products_concurrent [[(1 : Nat), 2], [3]] 2
      = [[(1 : Nat), 2], [3]].flatten :=
  (fetch_concurrent_returns_all_pages [[(1 : Nat), 2], [3]] 2 (by decide)
    (by decide)).1

theorem noStock_filterFn_eq_some (product : ShopifyProduct)
    (r : ProductNoStock) :
    (if product.status = "active" then
      if product.variants.any (fun variant => variant.inventory_quantity > 0)
      then none
      else some (mkNoStock product)
    else none) = some r ↔
    (product.status = "active" ∧
      (∀ v ∈ product.variants, v.inventory_quantity ≤ 0) ∧
      r = mkNoStock product) := by
  by_cases h1 : product.status = "active"
  · by_cases h2 :
        product.variants.any (fun variant => variant.inventory_quantity > 0)
    · rw [if_pos h1, if_pos h2]
      simp only [List.any_eq_true, decide_eq_true_eq] at h2
      obtain ⟨v, hv, hq⟩ := h2
      constructor
      · intro h
        exact absurd h (by simp)
      · rintro ⟨-, hall, -⟩
        exact absurd (hall v hv) (by omega)
    · rw [if_pos h1, if_neg h2]
      simp only [List.any_eq_true, decide_eq_true_eq, not_exists] at h2
      push_neg at h2
      simp only [Option.some_inj]
      constructor
      · intro h
        exact ⟨h1, fun v hv => by have := h2 v hv; omega, h.symm⟩
      · rintro ⟨-, -, h⟩
        exact h.symm
  · rw [if_neg h1]
    constructor
    · intro h
      exact absurd h (by simp)
    · rintro ⟨h, -⟩
      exact absurd h h1

/-- C6: the stock filter's output contains exactly the products whose
status is `"active"` and all of whose variants have
`inventory_quantity ≤ 0`; an active product with no variants is included;
and each output record's `is_excluded` flag is true exactly when its id is
in the fixed exclusion set, independent of title and status. -/
theorem stock_filter_exact (products : List ShopifyProduct) :
    (∀ r, r ∈ find_products_with_no_stock products ↔
      ∃ p, p ∈ products ∧ p.status = "active" ∧
        (∀ v ∈ p.variants, v.inventory_quantity ≤ 0) ∧ r = mkNoStock p) ∧
    (∀ r ∈ find_products_with_no_stock products,
      r.is_excluded = EXCLUDED_IDS_SET.contains r.id) ∧
    (∀ p ∈ products, p.status = "active" → p.variants = [] →
      mkNoStock p ∈ find_products_with_no_stock products) := by
  have hmem : ∀ r, r ∈ find_products_with_no_stock products ↔
      ∃ p, p ∈ products ∧ p.status = "active" ∧
        (∀ v ∈ p.variants, v.inventory_quantity ≤ 0) ∧ r = mkNoStock p := by
    intro r
    rw [find_products_with_no_stock, List.mem_filterMap]
    constructor
    · rintro ⟨p, hp, hf⟩
      obtain ⟨h1, h2, h3⟩ := (noStock_filterFn_eq_some p r).mp hf
      exact ⟨p, hp, h1, h2, h3⟩
    · rintro ⟨p, hp, h1, h2, h3⟩
      exact ⟨p, hp, (noStock_filterFn_eq_some p r).mpr ⟨h1, h2, h3⟩⟩
  refine ⟨hmem, ?_, ?_⟩
  · intro r hr
    obtain ⟨p, -, -, -, rfl⟩ := (hmem r).mp hr
    rfl
  · intro p hp hactive hvars
    exact (hmem (mkNoStock p)).mpr
      ⟨p, hp, hactive, by simp [hvars], rfl⟩

theorem stock_filter_exact_witness :
    mkNoStock ⟨55, "t", "active", []⟩ ∈
      find_products_with_no_stock [⟨55, "t", "active", []⟩] :=
  (stock_filter_exact [⟨55, "t", "active", []⟩]).2.2
    ⟨55, "t", "active", []⟩ (by simp) rfl rfl

theorem updateGo_counts (upd : Nat → Option String) :
    ∀ (products : List ProductNoStock) (i : Nat),
      ((updateGo upd i products).1.filter
          (fun r => r.success && r.error.isNone)).length
        + ((updateGo upd i products).1.filter (fun r => !r.success)).length
      = (products.filter (fun p => !p.is_excluded)).length := by
  intro products
  induction products with
  | nil => intro i; rfl
  | cons p rest ih =>
    intro i
    have hrec := ih (i + 1)
    by_cases hex : p.is_excluded
    · simp only [updateGo, if_pos hex]
      simp [List.filter_cons, hex]
      omega
    · cases hupd : upd i with
      | none =>
        simp only [updateGo, if_neg hex, hupd]
        simp [List.filter_cons, hex]
        omega
      | some e =>
        simp only [updateGo, if_neg hex, hupd]
        simp [List.filter_cons, hex]
        omega

/-- C7: the aggregated summary over a scan result and the updater's
outcomes satisfies `eligible_count = total_found - excluded_count` and
`successful_updates + failed_updates = eligible_count`; excluded candidates
are counted in neither tally (their outcome is `success` with a `some`
error note, so it passes neither summary filter). -/
theorem summary_invariants (upd : Nat → Option String)
    (products : List ProductNoStock) :
    (generate_summary products
        (update_products_to_draft upd products).1).eligible_count
      = (generate_summary products
          (update_products_to_draft upd products).1).total_found
        - (generate_summary products
            (update_products_to_draft upd products).1).excluded_count ∧
    (generate_summary products
        (update_products_to_draft upd products).1).successful_updates
      + (generate_summary products
          (update_products_to_draft upd products).1).failed_updates
      = (generate_summary products
          (update_products_to_draft upd products).1).eligible_count := by
  refine ⟨rfl, ?_⟩
  show ((updateGo upd 0 products).1.filter
      (fun r => r.success && r.error.isNone)).length
    + ((updateGo upd 0 products).1.filter (fun r => !r.success)).length
    = products.length - (products.filter (fun p => p.is_excluded)).length
  rw [updateGo_counts upd products 0]
  have hsplit : ∀ l : List ProductNoStock,
      (l.filter (fun p => !p.is_excluded)).length
        = l.length - (l.filter (fun p => p.is_excluded)).length := by
    intro l
    induction l with
    | nil => rfl
    | cons p rest ih =>
      have hle : (rest.filter (fun p => p.is_excluded)).length ≤ rest.length :=
        List.length_filter_le _ rest
      by_cases hex : p.is_excluded
      · simp [List.filter_cons, hex, ih]
      · simp [List.filter_cons, hex, ih]
        omega
  exact hsplit products

theorem updateGo_length (upd : Nat → Option String) :
    ∀ (products : List ProductNoStock) (i : Nat),
      (updateGo upd i products).1.length = products.length := by
  intro products
  induction products with
  | nil => intro i; rfl
  | cons p rest ih =>
    intro i
    by_cases hex : p.is_excluded
    · simp only [updateGo, if_pos hex, List.length_cons, ih (i + 1)]
    · cases hupd : upd i with
      | none => simp only [updateGo, if_neg hex, hupd, List.length_cons, ih (i + 1)]
      | some e => simp only [updateGo, if_neg hex, hupd, List.length_cons, ih (i + 1)]

/-- The `UpdateResult` the loop body of `update_products_to_draft` emits
for candidate `p` when the remote oracle replies `o` for it. -/
def expectedResult (p : ProductNoStock) (o : Option String) : UpdateResult :=
  if p.is_excluded then ⟨p.id, p.title, true, some "Excluded from updates"⟩
  else
    match o with
    | none => ⟨p.id, p.title, true, none⟩
    | some e => ⟨p.id, p.title, false, some e⟩

theorem updateGo_getD (upd : Nat → Option String) :
    ∀ (products : List ProductNoStock) (i j : Nat), j < products.length →
      (updateGo upd i products).1.getD j ⟨"", "", false, none⟩
        = expectedResult (products.getD j ⟨"", "", "", false⟩) (upd (i + j)) := by
  intro products
  induction products with
  | nil =>
    intro i j hj
    simp at hj
  | cons p rest ih =>
    intro i j hj
    have hcons : (updateGo upd i (p :: rest)).1
        = expectedResult p (upd i) :: (updateGo upd (i + 1) rest).1 := by
      by_cases hex : p.is_excluded
      · simp [updateGo, expectedResult, hex]
      · cases hupd : upd i with
        | none => simp [updateGo, expectedResult, hex, hupd]
        | some e => simp [updateGo, expectedResult, hex, hupd]
    cases j with
    | zero => rw [hcons]; simp
    | succ j' =>
      rw [hcons]
      simp only [List.getD_cons_succ]
      have harith : i + (j' + 1) = (i + 1) + j' := by omega
      rw [harith, ih (i + 1) j' (by simpa using hj)]

theorem updateGo_calls_sound (upd : Nat → Option String) :
    ∀ (products : List ProductNoStock) (i : Nat),
      ∀ c ∈ (updateGo upd i products).2,
        ∃ j, ∃ h : j < products.length, c.1 = i + j ∧
          (products.get ⟨j, h⟩).is_excluded = false ∧
          c.2 = (products.get ⟨j, h⟩).id := by
  intro products
  induction products with
  | nil =>
    intro i c hc
    simp [updateGo] at hc
  | cons p rest ih =>
    intro i c hc
    by_cases hex : p.is_excluded
    · rw [updateGo, if_pos hex] at hc
      obtain ⟨j, hj, h1, h2, h3⟩ := ih (i + 1) c hc
      exact ⟨j + 1, by simpa using hj, by omega, by simpa using h2,
        by simpa using h3⟩
    · have htail : c = (i, p.id) ∨ c ∈ (updateGo upd (i + 1) rest).2 := by
        cases hupd : upd i with
        | none =>
          rw [updateGo, if_neg hex, hupd] at hc
          simpa using hc
        | some e =>
          rw [updateGo, if_neg hex, hupd] at hc
          simpa using hc
      rcases htail with rfl | hc2
      · exact ⟨0, by simp, by omega,
          by simpa using eq_false_of_ne_true hex, rfl⟩
      · obtain ⟨j, hj, h1, h2, h3⟩ := ih (i + 1) c hc2
        exact ⟨j + 1, by simpa using hj, by omega, by simpa using h2,
          by simpa using h3⟩

theorem updateGo_calls_complete (upd : Nat → Option String) :
    ∀ (products : List ProductNoStock) (i j : Nat) (h : j < products.length),
      (products.get ⟨j, h⟩).is_excluded = false →
      (i + j, (products.get ⟨j, h⟩).id) ∈ (updateGo upd i products).2 := by
  intro products
  induction products with
  | nil =>
    intro i j hj
    simp at hj
  | cons p rest ih =>
    intro i j hj hex
    cases j with
    | zero =>
      simp only [List.get] at hex ⊢
      rw [updateGo, if_neg (by simp [hex])]
      cases hupd : upd i with
      | none => simp
      | some e => simp
    | succ j' =>
      simp only [List.get] at hex ⊢
      have := ih (i + 1) j' (by simpa using hj) hex
      have harith : i + (j' + 1) = (i + 1) + j' := by omega
      rw [harith]
      by_cases hexp : p.is_excluded
      · rw [updateGo, if_pos hexp]
        exact this
      · cases hupd : upd i with
        | none =>
          rw [updateGo, if_neg hexp, hupd]
          exact List.mem_cons_of_mem _ this
        | some e =>
          rw [updateGo, if_neg hexp, hupd]
          exact List.mem_cons_of_mem _ this

/-- C8: for every ordered candidate list and every schedule of remote
replies, the updater processes every candidate (one outcome per candidate,
in order, regardless of earlier failures).  An excluded candidate yields
`success = true` with the explanatory note and no remote call is issued at
its position; a non-excluded candidate gets exactly one remote call —
succeeding calls yield `success = true` with no error, failing calls yield
`success = false` carrying the error details, and the loop continues either
way. -/
theorem updater_per_item (upd : Nat → Option String)
    (products : List ProductNoStock) :
    (update_products_to_draft upd products).1.length = products.length ∧
    ∀ j, j < products.length →
      ((products.getD j ⟨"", "", "", false⟩).is_excluded = true →
        (update_products_to_draft upd products).1.getD j ⟨"", "", false, none⟩
          = ⟨(products.getD j ⟨"", "", "", false⟩).id,
             (products.getD j ⟨"", "", "", false⟩).title, true,
             some "Excluded from updates"⟩ ∧
        ∀ c ∈ (update_products_to_draft upd products).2, c.1 ≠ j) ∧
      ((products.getD j ⟨"", "", "", false⟩).is_excluded = false →
        (j, (products.getD j ⟨"", "", "", false⟩).id)
          ∈ (update_products_to_draft upd products).2 ∧
        (upd j = none →
          (update_products_to_draft upd products).1.getD j ⟨"", "", false, none⟩
            = ⟨(products.getD j ⟨"", "", "", false⟩).id,
               (products.getD j ⟨"", "", "", false⟩).title, true, none⟩) ∧
        (∀ e, upd j = some e →
          (update_products_to_draft upd products).1.getD j ⟨"", "", false, none⟩
            = ⟨(products.getD j ⟨"", "", "", false⟩).id,
               (products.getD j ⟨"", "", "", false⟩).title, false, some e⟩)) := by
  simp only [update_products_to_draft]
  refine ⟨updateGo_length upd products 0, ?_⟩
  intro j hj
  have hres := updateGo_getD upd products 0 j hj
  rw [Nat.zero_add] at hres
  have hgetD : products.getD j ⟨"", "", "", false⟩ = products.get ⟨j, hj⟩ := by
    rw [List.getD_eq_getElem products _ hj, List.get_eq_getElem]
  constructor
  · intro hex
    constructor
    · rw [hres, expectedResult.eq_def, if_pos hex]
    · intro c hc hcj
      obtain ⟨j', hj', h1, h2, -⟩ :=
        updateGo_calls_sound upd products 0 c hc
      have hjj : j' = j := by omega
      subst hjj
      rw [hgetD] at hex
      rw [hex] at h2
      exact absurd h2 (by simp)
  · intro hex
    refine ⟨?_, ?_, ?_⟩
    · have hcall := updateGo_calls_complete upd products 0 j hj
        (by rw [← hgetD]; exact hex)
      rw [Nat.zero_add, ← hgetD] at hcall
      exact hcall
    · intro hupd
      rw [hres, expectedResult.eq_def, if_neg (by rw [hex]; simp), hupd]
    · intro e hupd
      rw [hres, expectedResult.eq_def, if_neg (by rw [hex]; simp), hupd]

theorem updater_per_item_witness :
    (update_products_to_draft
        (fun i => if i = 1 then some "boom" else none)
        [⟨"42", "a", "active", true⟩, ⟨"7", "b", "active", false⟩]).1.getD 1
        ⟨"", "", false, none⟩
      = ⟨"7", "b", false, some "boom"⟩ :=
  (((updater_per_item (fun i => if i = 1 then some "boom" else none)
      [⟨"42", "a", "active", true⟩, ⟨"7", "b", "active", false⟩]).2 1
      (by decide)).2 rfl).2.2 "boom" rfl

/-- C2: when the destination increment fails with remote text `e` and the
compensating source re-increment also fails with remote text `r`
(the `Unrecoverable` outcome), the returned error message contains both
failure texts. -/
theorem mover_unrecoverable_reports_both (env : MoverEnv) (st : InvState)
    (item fromId toId pid vt pn pr fromLoc toLoc e r : String)
    (hdec : env.decErr = none) (hinc : env.incErr = some e)
    (hrb : env.rbErr = some r) :
    ∃ msg,
      (transfer_inventory_between_locations env st item fromId toId pid vt pn
          pr fromLoc toLoc).outcome = Except.error msg ∧
      substringOf e msg ∧ substringOf r msg := by
  obtain ⟨d, i, rb, ls, ld, zc, se⟩ := env
  simp only at hdec hinc hrb
  subst hdec; subst hinc; subst hrb
  refine ⟨_, rfl, ?_, ?_⟩
  · refine
      ⟨("ERRORE CRITICO: Fallimento trasferimento e rollback fallito. Originale: "
          ++ "Failed to adjust inventory: ").data,
       (", Rollback: " ++ ("Failed to adjust inventory: " ++ r)).data, ?_⟩
    simp [String.data_append, List.append_assoc]
  · refine
      ⟨("ERRORE CRITICO: Fallimento trasferimento e rollback fallito. Originale: "
          ++ ("Failed to adjust inventory: " ++ e) ++ ", Rollback: "
          ++ "Failed to adjust inventory: ").data,
       ([] : List Char), ?_⟩
    simp [String.data_append, List.append_assoc]

theorem mover_unrecoverable_reports_both_witness :
    ∃ msg,
      (transfer_inventory_between_locations
          ⟨none, some "rate limited", some "network error", none, none,
            Except.ok false, none⟩
          ⟨fun _ _ => 5⟩ "I" "A" "B" "P" "V" "N" "E" "Treviso"
          "Mogliano").outcome = Except.error msg ∧
      substringOf "rate limited" msg ∧ substringOf "network error" msg :=
  mover_unrecoverable_reports_both _ _ "I" "A" "B" "P" "V" "N" "E" "Treviso"
    "Mogliano" "rate limited" "network error" rfl rfl rfl

/-- C3: when the source decrement succeeds, the destination increment fails
with remote text `e`, and the compensating source re-increment succeeds
(the `RolledBack` outcome), every remote quantity — in particular the
source location's — equals its pre-transfer value, and the reported error
is exactly the original destination failure. -/
theorem mover_rolledback_restores_state (env : MoverEnv) (st : InvState)
    (item fromId toId pid vt pn pr fromLoc toLoc e : String)
    (hdec : env.decErr = none) (hinc : env.incErr = some e)
    (hrb : env.rbErr = none) :
    (transfer_inventory_between_locations env st item fromId toId pid vt pn
        pr fromLoc toLoc).outcome
      = Except.error ("Errore nell'aggiunta a " ++ toLoc ++ ": "
          ++ ("Failed to adjust inventory: " ++ e)) ∧
    ∀ v l,
      (transfer_inventory_between_locations env st item fromId toId pid vt pn
          pr fromLoc toLoc).state.qty v l = st.qty v l := by
  obtain ⟨d, i, rb, ls, ld, zc, se⟩ := env
  simp only at hdec hinc hrb
  subst hdec; subst hinc; subst hrb
  refine ⟨rfl, ?_⟩
  intro v l
  show (applyAdjust (applyAdjust st ⟨item, fromId, -1⟩)
      ⟨item, fromId, 1⟩).qty v l = st.qty v l
  simp only [applyAdjust]
  split_ifs <;> omega

theorem mover_rolledback_restores_state_witness :
    (transfer_inventory_between_locations
        ⟨none, some "rate limited", none, none, none, Except.ok false, none⟩
        ⟨fun _ _ => 5⟩ "I" "A" "B" "P" "V" "N" "E" "Treviso"
        "Mogliano").state.qty "I" "A" = (5 : Int) :=
  ((mover_rolledback_restores_state _ _ "I" "A" "B" "P" "V" "N" "E" "Treviso"
    "Mogliano" "rate limited" rfl rfl rfl).2 "I" "A").trans rfl

theorem transferState_net (st : InvState) (item fromId toId : String) :
    (applyAdjust (applyAdjust st ⟨item, fromId, -1⟩) ⟨item, toId, 1⟩).qty
        item fromId
      + (applyAdjust (applyAdjust st ⟨item, fromId, -1⟩) ⟨item, toId, 1⟩).qty
        item toId
      = st.qty item fromId + st.qty item toId ∧
    (fromId ≠ toId →
      (applyAdjust (applyAdjust st ⟨item, fromId, -1⟩) ⟨item, toId, 1⟩).qty
          item fromId = st.qty item fromId - 1 ∧
      (applyAdjust (applyAdjust st ⟨item, fromId, -1⟩) ⟨item, toId, 1⟩).qty
          item toId = st.qty item toId + 1) := by
  simp only [applyAdjust]
  by_cases h : fromId = toId
  · subst h
    simp
  · have h2 : toId ≠ fromId := Ne.symm h
    simp [h, h2]
    omega

/-- C4: whenever the transfer returns success (`Committed`), the adjustments
issued are exactly the source decrement by 1 followed by the destination
increment by 1 — so the net quantity change across the two locations is
zero, and for distinct locations the source ends at exactly `-1` and the
destination at exactly `+1` from their pre-transfer values. -/
theorem mover_committed_net_zero (env : MoverEnv) (st : InvState)
    (item fromId toId pid vt pn pr fromLoc toLoc : String)
    (resp : EnhancedStatusResponse)
    (hok : (transfer_inventory_between_locations env st item fromId toId pid
        vt pn pr fromLoc toLoc).outcome = Except.ok resp) :
    (transfer_inventory_between_locations env st item fromId toId pid vt pn
        pr fromLoc toLoc).applied = [(fromId, -1), (toId, 1)] ∧
    (transfer_inventory_between_locations env st item fromId toId pid vt pn
          pr fromLoc toLoc).state.qty item fromId
      + (transfer_inventory_between_locations env st item fromId toId pid vt
          pn pr fromLoc toLoc).state.qty item toId
      = st.qty item fromId + st.qty item toId ∧
    (fromId ≠ toId →
      (transfer_inventory_between_locations env st item fromId toId pid vt pn
          pr fromLoc toLoc).state.qty item fromId = st.qty item fromId - 1 ∧
      (transfer_inventory_between_locations env st item fromId toId pid vt pn
          pr fromLoc toLoc).state.qty item toId = st.qty item toId + 1) := by
  obtain ⟨d, i, rb, ls, ld, zc, se⟩ := env
  cases d with
  | some e => exact absurd hok (by simp [transfer_inventory_between_locations,
      adjust_inventory, adjustGo])
  | none =>
    cases i with
    | some e =>
      cases rb with
      | some r => exact absurd hok (by
          simp [transfer_inventory_between_locations, adjust_inventory,
            adjustGo])
      | none => exact absurd hok (by
          simp [transfer_inventory_between_locations, adjust_inventory,
            adjustGo])
    | none =>
      have hnet := transferState_net st item fromId toId
      cases zc with
      | error e2 => exact ⟨rfl, hnet.1, hnet.2⟩
      | ok b =>
        cases b with
        | false => exact ⟨rfl, hnet.1, hnet.2⟩
        | true =>
          cases se with
          | some e3 => exact absurd hok (by
              simp [transfer_inventory_between_locations, adjust_inventory,
                adjustGo])
          | none => exact ⟨rfl, hnet.1, hnet.2⟩

theorem mover_committed_net_zero_witness :
    (transfer_inventory_between_locations
        ⟨none, none, none, none, none, Except.ok false, none⟩
        ⟨fun _ _ => 5⟩ "I" "A" "B" "P" "V" "N" "E" "T" "M").applied
      = [("A", -1), ("B", 1)] :=
  (mover_committed_net_zero ⟨none, none, none, none, none, Except.ok false,
    none⟩ ⟨fun _ _ => 5⟩ "I" "A" "B" "P" "V" "N" "E" "T" "M" _ rfl).1

/-- C5 counterexample: in `decrease_inventory_with_logging` a Firestore
audit-log failure is propagated with `?`, so it flips an operation whose
primary adjustment succeeded (the `-1` was applied) into a failure —
refuting the claim that audit-log failures are non-fatal in every component
that emits audit logs. -/
theorem audit_log_failure_flips_success :
    (decrease_inventory_with_logging
        ⟨none, Except.ok false, none, some "firebase down"⟩
        ⟨fun _ _ => 5⟩ "I" "L" "P" "V" "N" "E" "T").outcome
      = Except.error "firebase down" ∧
    (decrease_inventory_with_logging
        ⟨none, Except.ok false, none, some "firebase down"⟩
        ⟨fun _ _ => 5⟩ "I" "L" "P" "V" "N" "E" "T").applied
      = [("L", -1)] :=
  ⟨rfl, rfl⟩

/-- C5 (amended): in `transfer_inventory_between_locations`, failures of the
two audit-log writes and of the zero-inventory check itself never flip a
successful transfer into a failure; and in
`decrease_inventory_with_logging` the status-to-draft update failure is
likewise non-fatal.  (Not best-effort, per the counterexample: the
Firestore log write in `decrease_inventory_with_logging`, and the
status-to-draft update in the transfer when the zero check reports
zero.) -/
theorem best_effort_side_effects (env : MoverEnv) (st : InvState)
    (item fromId toId pid vt pn pr fromLoc toLoc : String)
    (env2 : DecreaseEnv) (st2 : InvState)
    (item2 loc2 pid2 vt2 pn2 pr2 neg2 : String)
    (hdec : env.decErr = none) (hinc : env.incErr = none)
    (hzc : env.zeroCheck = Except.ok false ∨
      ∃ e, env.zeroCheck = Except.error e)
    (hadj : env2.adjErr = none) (hzc2 : env2.zeroCheck = Except.ok true)
    (hlog2 : env2.logErr = none) :
    (∃ resp, (transfer_inventory_between_locations env st item fromId toId
        pid vt pn pr fromLoc toLoc).outcome = Except.ok resp) ∧
    (∃ resp, (decrease_inventory_with_logging env2 st2 item2 loc2 pid2 vt2
        pn2 pr2 neg2).outcome = Except.ok resp) := by
  obtain ⟨d, i, rb, ls, ld, zc, se⟩ := env
  obtain ⟨a2, zc2, se2, lg2⟩ := env2
  simp only at hdec hinc hadj hzc2 hlog2 hzc
  subst hdec; subst hinc; subst hadj; subst hzc2; subst hlog2
  constructor
  · rcases hzc with hzc | ⟨e, hzc⟩ <;> subst hzc
    · exact ⟨_, rfl⟩
    · exact ⟨_, rfl⟩
  · cases se2 with
    | none => exact ⟨_, rfl⟩
    | some e3 => exact ⟨_, rfl⟩

theorem best_effort_side_effects_witness :
    (∃ resp, (transfer_inventory_between_locations
        ⟨none, none, none, some "log1 down", some "log2 down",
          Except.error "check down", some "status down"⟩
        ⟨fun _ _ => 5⟩ "I" "A" "B" "P" "V" "N" "E" "T" "M").outcome
      = Except.ok resp) ∧
    (∃ resp, (decrease_inventory_with_logging
        ⟨none, Except.ok true, some "status down", none⟩
        ⟨fun _ _ => 5⟩ "I" "L" "P" "V" "N" "E" "T").outcome
      = Except.ok resp) :=
  best_effort_side_effects _ _ "I" "A" "B" "P" "V" "N" "E" "T" "M" _ _
    "I" "L" "P" "V" "N" "E" "T" rfl rfl (Or.inr ⟨"check down", rfl⟩) rfl rfl
    rfl

/-- C9 counterexample: reading the stored location when the settings file
does not exist returns the error `"Location not set"` from
`get_app_location` — absence is reported as an error of the read
operation, not as an unset value. -/
theorem absent_location_file_is_error :
    get_app_location none (fun _ => Except.error "unused")
      = Except.error "Location not set" :=
  rfl

/-- C9 (amended): `get_app_location` reports an absent settings file as the
error `"Location not set"`; the consumer `get_current_location_config`
converts that error into the default `"Treviso"`, so absence behaves as
"unset" only at the configuration level, not at the read operation. -/
theorem absent_location_file_amended
    (parse : String → Except String String) (config : AppConfig) :
    get_app_location none parse = Except.error "Location not set" ∧
    get_current_location_config none parse config
      = Except.ok (trevisoPrimary config) :=
  ⟨rfl, rfl⟩

/-- C10: `get_current_location_config` is total and two-valued — it always
returns one of the two fixed configurations, decided by a single string
comparison of the stored location with `"Treviso"`: a stored `"Treviso"`
yields the Treviso-primary configuration, any other stored string yields
the Mogliano-primary configuration, and an absent or unreadable setting
silently defaults to `"Treviso"` (hence Treviso-primary). -/
theorem location_config_total_two_valued (file : Option String)
    (parse : String → Except String String) (config : AppConfig) :
    (get_current_location_config file parse config
        = Except.ok (trevisoPrimary config) ∨
      get_current_location_config file parse config
        = Except.ok (moglianoPrimary config)) ∧
    (get_app_location file parse = Except.ok "Treviso" →
      get_current_location_config file parse config
        = Except.ok (trevisoPrimary config)) ∧
    (∀ s, get_app_location file parse = Except.ok s → s ≠ "Treviso" →
      get_current_location_config file parse config
        = Except.ok (moglianoPrimary config)) ∧
    (∀ e, get_app_location file parse = Except.error e →
      get_current_location_config file parse config
        = Except.ok (trevisoPrimary config)) := by
  cases hga : get_app_location file parse with
  | ok l =>
    by_cases hl : l = "Treviso"
    · subst hl
      have hcfg : get_current_location_config file parse config
          = Except.ok (trevisoPrimary config) := by
        simp [get_current_location_config, hga, trevisoPrimary]
      refine ⟨Or.inl hcfg, fun _ => hcfg, ?_, ?_⟩
      · intro s hs hsne
        cases hs
        exact absurd rfl hsne
      · intro e he
        cases he
    · have hcfg : get_current_location_config file parse config
          = Except.ok (moglianoPrimary config) := by
        simp [get_current_location_config, hga, moglianoPrimary, hl]
      refine ⟨Or.inr hcfg, ?_, fun s hs hsne => hcfg, ?_⟩
      · intro h
        cases h
        exact absurd rfl hl
      · intro e he
        cases he
  | error err =>
    have hcfg : get_current_location_config file parse config
        = Except.ok (trevisoPrimary config) := by
      simp [get_current_location_config, hga, trevisoPrimary]
    refine ⟨Or.inl hcfg, ?_, ?_, fun e he => hcfg⟩
    · intro h
      cases h
    · intro s hs hsne
      cases hs

theorem location_config_total_two_valued_witness :
    get_current_location_config (some "Mogliano") (fun s => Except.ok s)
        ⟨"111", "222"⟩
      = Except.ok (moglianoPrimary ⟨"111", "222"⟩) :=
  (location_config_total_two_valued (some "Mogliano") (fun s => Except.ok s)
    ⟨"111", "222"⟩).2.2.1 "Mogliano" rfl (by decide)

end Inventario
